import Mathlib

/-
Shallow embedding of the Query Orchestration and Data Fusion Pipeline of the
city-relocation-advisor repository.  Each definition is translated directly
from the TypeScript source named next to it.  JavaScript objects with optional
fields become Lean structures of Option-typed fields; JS object maps become
association lists on String keys; thrown exceptions become the error side of
Except; numbers that carry scores, timestamps and token counts become rationals.
-/

namespace CityRelocation

/-- JS `a || b` on optional strings: the empty string is falsy. -/
def jsOrS (a b : Option String) : Option String :=
  match a with
  | some s => if s = "" then b else some s
  | none => b

/-- JS `a || d` on an optional string with a definite default. -/
def jsOrD (a : Option String) (d : String) : String :=
  match a with
  | some s => if s = "" then d else s
  | none => d

/-- Lookup in a JS-object association list. -/
def objLookup (l : List (String × β)) (k : String) : Option β :=
  match l with
  | [] => none
  | (k₁, v) :: t => if k₁ = k then some v else objLookup t k

/-- JS property assignment `o[k] = v`: overwrite in place, else append. -/
def objInsert (l : List (String × β)) (k : String) (v : β) : List (String × β) :=
  match l with
  | [] => [(k, v)]
  | (k₁, v₁) :: t => if k₁ = k then (k, v) :: t else (k₁, v₁) :: objInsert t k v

/-- JS `delete o[k]`. -/
def objErase (l : List (String × β)) (k : String) : List (String × β) :=
  l.filter (fun p => p.1 ≠ k)

/-- Iteration order of `new Set(list)`: first occurrences, in order. -/
def insertionDedup (l : List String) : List String :=
  l.foldl (fun acc k => if k ∈ acc then acc else acc ++ [k]) []

/-- The embedding of `parseFloat(x.toFixed(1))`: round to one decimal place. -/
def round1 (q : ℚ) : ℚ := (⌊q * 10 + 1/2⌋ : ℚ) / 10

/-! ### Provider payload shapes (the fields the fusion extractors read).
An error-shaped payload, as produced by the adapter catch blocks
(`return { error: ..., details: ... }`), is a payload whose data fields are
all absent and whose `error` field is set. -/

/-- One entry of the Teleport `scores.categories` array. -/
structure ScoreCategory where
  name : String
  score_out_of_10 : Option ℚ
deriving DecidableEq, Repr

structure ScoresObj where
  categories : Option (List ScoreCategory)
deriving DecidableEq, Repr

structure UrbanArea where
  name : Option String
  fullName : Option String
  scores : Option ScoresObj
deriving DecidableEq, Repr

/-- The `city` object of a Teleport response. -/
structure TeleCity where
  name : Option String
  full_name : Option String
deriving DecidableEq, Repr

/-- A fallback estimated score is either a string (Teleport unavailable) or a number. -/
inductive EstScore where
  | str (s : String)
  | num (q : ℚ)
deriving DecidableEq, Repr

structure FallbackData where
  estimatedScores : Option (List (String × EstScore))
deriving DecidableEq, Repr

structure CityInfoPayload where
  urbanArea : Option UrbanArea := none
  city : Option TeleCity := none
  fallbackData : Option FallbackData := none
  error : Option String := none
deriving DecidableEq, Repr

structure NewsSource where
  name : Option String
deriving DecidableEq, Repr

structure Article where
  title : Option String
  description : Option String
  url : Option String
  source : Option NewsSource
  publishedAt : Option String
deriving DecidableEq, Repr

structure NewsPayload where
  articles : Option (List Article) := none
  error : Option String := none
deriving DecidableEq, Repr

structure OrganicResult where
  title : Option String
  snippet : Option String
  link : Option String
deriving DecidableEq, Repr

structure WebSearchPayload where
  organic : Option (List OrganicResult) := none
  error : Option String := none
deriving DecidableEq, Repr

structure FeatureProperties where
  neighborhood : Option String
  name : Option String
  city : Option String
  state : Option String
  country : Option String
deriving DecidableEq, Repr

structure Geometry where
  coordinates : Option (List ℚ)
deriving DecidableEq, Repr

structure Feature where
  properties : Option FeatureProperties
  geometry : Option Geometry
deriving DecidableEq, Repr

structure NeighborhoodsPayload where
  features : Option (List Feature) := none
  error : Option String := none
deriving DecidableEq, Repr

/-- One element of the `summaries` array built by the api-tools data gatherers. -/
structure SummaryItem where
  title : Option String
  source : Option String
  summary : Option String
  keyPoints : Option (List String)
deriving DecidableEq, Repr

/-- Payload of getHousingMarketData / getJobOpportunitiesData / etc. -/
structure SummariesPayload where
  summaries : Option (List SummaryItem) := none
  searchResults : Option (List OrganicResult) := none
  error : Option String := none
deriving DecidableEq, Repr

/-- APIOrchestrator.APIResults: the per-provider result map handed to fusion.
A missing field means the provider was not called; an error-shaped payload
means it was called and failed. -/
structure APIResults where
  cityInfo : Option CityInfoPayload := none
  webSearch : Option WebSearchPayload := none
  news : Option NewsPayload := none
  neighborhoods : Option NeighborhoodsPayload := none
  housingMarket : Option SummariesPayload := none
  jobOpportunities : Option SummariesPayload := none
  schoolDistricts : Option SummariesPayload := none
  transportation : Option SummariesPayload := none
deriving DecidableEq, Repr

/-! ### DataFusionEngine (src/modules/fusion/DataFusionEngine.ts) -/

/-- The fixed Teleport-to-canonical category mapping table of extractScores. -/
def categoryMapping : List (String × String) :=
  [("Housing", "housing"),
   ("Cost of Living", "costOfLiving"),
   ("Safety", "safety"),
   ("Education", "education"),
   ("Economy", "economy"),
   ("Environmental Quality", "environment"),
   ("Healthcare", "healthcare"),
   ("Business Freedom", "business"),
   ("Outdoors", "outdoors"),
   ("Commute", "commute"),
   ("Leisure & Culture", "culture"),
   ("Tolerance", "tolerance"),
   ("Internet Access", "internet"),
   ("Startups", "startups")]

/-- `name.toLowerCase().replace(/\s+/g, '')`. -/
def stripLowerName (s : String) : String :=
  String.mk (s.toLower.data.filter (fun c => ¬ c.isWhitespace))

/-- `categoryMapping[name] || name.toLowerCase().replace(...)`. -/
def mappedName (name : String) : String :=
  (objLookup categoryMapping name).getD (stripLowerName name)

/-- The forEach body of extractScores; a category without `score_out_of_10`
makes `toFixed` throw, so the surrounding catch yields undefined (none). -/
def extractScoresGo (cats : List ScoreCategory) (acc : List (String × ℚ)) :
    Option (List (String × ℚ)) :=
  match cats with
  | [] => some acc
  | c :: t =>
    match c.score_out_of_10 with
    | none => none
    | some q => extractScoresGo t (objInsert acc (mappedName c.name) (round1 q))

/-- DataFusionEngine.extractScores. -/
def extractScores (cityInfo : Option CityInfoPayload) : Option (List (String × ℚ)) :=
  match cityInfo with
  | none => none
  | some ci =>
    match ci.urbanArea with
    | none => none
    | some ua =>
      match ua.scores with
      | none => none
      | some so => extractScoresGo (so.categories.getD []) []

structure NeighborhoodOut where
  name : String
  city : String
  state : String
  country : String
  coordinates : Option (List ℚ)
deriving DecidableEq, Repr

/-- DataFusionEngine.extractNeighborhoods. -/
def extractNeighborhoods (neighborhoodInfo : Option NeighborhoodsPayload) :
    List NeighborhoodOut :=
  match neighborhoodInfo with
  | none => []
  | some n =>
    match n.features with
    | none => []
    | some fs =>
      fs.map (fun f =>
        { name := jsOrD (jsOrS (f.properties.bind (·.neighborhood))
                               (f.properties.bind (·.name))) "Unknown",
          city := jsOrD (f.properties.bind (·.city)) "Unknown",
          state := jsOrD (f.properties.bind (·.state)) "Unknown",
          country := jsOrD (f.properties.bind (·.country)) "Unknown",
          coordinates := f.geometry.bind (·.coordinates) })

structure NewsOut where
  title : Option String
  description : Option String
  url : Option String
  source : Option String
  publishedAt : Option String
deriving DecidableEq, Repr

/-- The map body of extractNews; `article.source.name` throws when `source`
is absent, and the catch then returns the empty list. -/
def extractNewsGo (arts : List Article) : Option (List NewsOut) :=
  match arts with
  | [] => some []
  | a :: t =>
    match a.source with
    | none => none
    | some src =>
      match extractNewsGo t with
      | none => none
      | some rest =>
        some ({ title := a.title, description := a.description, url := a.url,
                source := src.name, publishedAt := a.publishedAt } :: rest)

/-- DataFusionEngine.extractNews. -/
def extractNews (newsInfo : Option NewsPayload) : List NewsOut :=
  match newsInfo with
  | none => []
  | some n =>
    match n.articles with
    | none => []
    | some arts => (extractNewsGo arts).getD []

structure WebOut where
  title : Option String
  description : Option String
  url : Option String
deriving DecidableEq, Repr

/-- DataFusionEngine.extractWebResults. -/
def extractWebResults (webSearch : Option WebSearchPayload) : List WebOut :=
  match webSearch with
  | none => []
  | some w =>
    match w.organic with
    | none => []
    | some rs =>
      rs.map (fun r => { title := r.title, description := r.snippet, url := r.link })

/-- The summary/sources/highlights object built four times in processCityData
(housingMarket, jobMarket, transportation, schools).  `join` renders an
undefined element as the empty string, `keyPoints || []` defaults to nil. -/
structure MarketSummary where
  summary : Option String
  sources : Option (List (Option String))
  highlights : List String
deriving DecidableEq, Repr

def extractMarket (p : SummariesPayload) : MarketSummary :=
  match p.summaries with
  | none => { summary := none, sources := none, highlights := [] }
  | some items =>
    { summary := some (String.intercalate " " (items.map (fun s => s.summary.getD ""))),
      sources := some (items.map (·.source)),
      highlights := (items.map (fun s => s.keyPoints.getD [])).flatten }

/-- DataFusionEngine.CityData, the canonical fused city record. -/
structure CityData where
  name : String
  fullName : Option String := none
  scores : Option (List (String × ℚ)) := none
  summary : Option String := none
  neighborhoods : Option (List NeighborhoodOut) := none
  housingMarket : Option MarketSummary := none
  jobMarket : Option MarketSummary := none
  transportation : Option MarketSummary := none
  schools : Option MarketSummary := none
  news : Option (List NewsOut) := none
  webResults : Option (List WebOut) := none
deriving DecidableEq, Repr

/-- The loop over fallbackData.estimatedScores: each numeric estimated score is
copied into the score map, string placeholders are skipped. -/
def copyEstimatedScores (est : List (String × EstScore)) (sc : List (String × ℚ)) :
    List (String × ℚ) :=
  est.foldl (fun sc kv =>
    match kv.2 with
    | .num q => objInsert sc kv.1 q
    | .str _ => sc) sc

/-- DataFusionEngine.processCityData, read field by field as the net effect of
the sequential updates of the source: `name` is the requested city; `fullName`,
`scores` and `summary` come from the cityInfo branch (where fallbackData, when
present, overwrites `scores` with the copied numeric estimates and sets the
fallback summary line); every other field is set exactly when the corresponding
provider result is present in the map — error-shaped payloads are present and
truthy, so they still set their field, via an extractor that then finds no data. -/
def processCityData (cityName : String) (apiResults : APIResults) : CityData :=
  { name := cityName,
    fullName :=
      match apiResults.cityInfo with
      | some ci =>
        (match ci.urbanArea with
         | some ua => jsOrS ua.fullName ua.name
         | none =>
           match ci.city with
           | some c => jsOrS c.full_name c.name
           | none => none)
      | none => none,
    scores :=
      match apiResults.cityInfo with
      | some ci =>
        (match ci.fallbackData with
         | some fb =>
           (match fb.estimatedScores with
            | some est => some (copyEstimatedScores est [])
            | none => some [])
         | none =>
           match ci.urbanArea with
           | some _ => extractScores apiResults.cityInfo
           | none => none)
      | none => none,
    summary :=
      match apiResults.cityInfo with
      | some ci =>
        (match ci.fallbackData with
         | some _ => some ("Information about " ++ cityName ++ " (using fallback data)")
         | none => none)
      | none => none,
    neighborhoods :=
      match apiResults.neighborhoods with
      | some _ => some (extractNeighborhoods apiResults.neighborhoods)
      | none => none,
    news :=
      match apiResults.news with
      | some _ => some (extractNews apiResults.news)
      | none => none,
    webResults :=
      match apiResults.webSearch with
      | some _ => some (extractWebResults apiResults.webSearch)
      | none => none,
    housingMarket :=
      match apiResults.housingMarket with
      | some hm => some (extractMarket hm)
      | none => none,
    jobMarket :=
      match apiResults.jobOpportunities with
      | some jo => some (extractMarket jo)
      | none => none,
    transportation :=
      match apiResults.transportation with
      | some tr => some (extractMarket tr)
      | none => none,
    schools :=
      match apiResults.schoolDistricts with
      | some sd => some (extractMarket sd)
      | none => none }

structure CategoryComparison where
  best : String
  difference : ℚ
deriving DecidableEq, Repr

structure Comparison where
  winner : String
  categories : List (String × CategoryComparison)
deriving DecidableEq, Repr

/-- The forEach body of compareCities: accumulate category entries and the two
win counters.  A score absent on one side reads as 0 via `|| 0`. -/
def compareStep (s1 s2 : List (String × ℚ)) (name1 name2 : String)
    (acc : List (String × CategoryComparison) × ℕ × ℕ) (category : String) :
    List (String × CategoryComparison) × ℕ × ℕ :=
  let score1 := (objLookup s1 category).getD 0
  let score2 := (objLookup s2 category).getD 0
  if score2 < score1 then
    (acc.1 ++ [(category, { best := name1, difference := round1 (score1 - score2) })],
     acc.2.1 + 1, acc.2.2)
  else if score1 < score2 then
    (acc.1 ++ [(category, { best := name2, difference := round1 (score2 - score1) })],
     acc.2.1, acc.2.2 + 1)
  else
    (acc.1 ++ [(category, { best := "tie", difference := 0 })], acc.2.1, acc.2.2)

/-- DataFusionEngine.compareCities. -/
def compareCities (cities : List CityData) : Option Comparison :=
  match cities with
  | city1 :: city2 :: _ =>
    match city1.scores, city2.scores with
    | some s1, some s2 =>
      let allCategories := insertionDedup (s1.map Prod.fst ++ s2.map Prod.fst)
      let r := allCategories.foldl (compareStep s1 s2 city1.name city2.name) ([], 0, 0)
      some { winner :=
               if r.2.2 < r.2.1 then city1.name
               else if r.2.1 < r.2.2 then city2.name
               else "tie",
             categories := r.1 }
    | _, _ => none
  | _ => none

/-- Spec-side definition, following the words of the specification only (for
comparison against compareCities): the comparison runs over the categories
present in both score maps, and the overall winner is the city that wins a
strict majority of those compared categories, otherwise a tie; an equal-score
category counts toward neither tally. -/
def specStrictMajorityWinner (city1 city2 : CityData) : Option String :=
  match city1.scores, city2.scores with
  | some s1, some s2 =>
    let compared := (insertionDedup (s1.map Prod.fst)).filter
      (fun k => (objLookup s2 k).isSome)
    let w1 := compared.countP
      (fun k => decide ((objLookup s2 k).getD 0 < (objLookup s1 k).getD 0))
    let w2 := compared.countP
      (fun k => decide ((objLookup s1 k).getD 0 < (objLookup s2 k).getD 0))
    if compared.length < 2 * w1 then some city1.name
    else if compared.length < 2 * w2 then some city2.name
    else some "tie"
  | _, _ => none

/-! ### IntentParser shapes needed by merge -/

inductive QueryIntent where
  | CITY_INFO
  | CITY_COMPARISON
  | NEIGHBORHOOD_RECOMMENDATION
  | HOUSING_MARKET
  | JOB_OPPORTUNITIES
  | SCHOOL_DISTRICTS
  | TRANSPORTATION
  | COST_OF_LIVING
  | LIFESTYLE_MATCH
  | RELOCATION_LOGISTICS
  | GENERAL_ADVICE
  | OTHER
deriving DecidableEq, Repr

structure LocationInfo where
  cities : Option (List String) := none
deriving DecidableEq, Repr

structure ParsedIntent where
  intent : QueryIntent
  locations : LocationInfo
  originalQuery : String
deriving DecidableEq, Repr

structure FusedData where
  cities : List CityData
  comparison : Option Comparison := none
  generalInfo : Option (List WebOut) := none
  originalQuery : String
  intent : QueryIntent
  error : Option String := none
deriving DecidableEq, Repr

/-- DataFusionEngine.merge.  The try/catch of the source cannot fire in this
total model, so the error field stays none. -/
def merge (parsedIntent : ParsedIntent) (apiResults : APIResults) : FusedData :=
  let cities := parsedIntent.locations.cities.getD []
  let base := cities.map (fun cityName => processCityData cityName apiResults)
  let cityRecords :=
    if cities.isEmpty && (apiResults.cityInfo.isSome || apiResults.neighborhoods.isSome)
    then base ++ [processCityData "New York" apiResults]
    else base
  let comparison :=
    if 2 ≤ cityRecords.length then compareCities cityRecords else none
  let generalInfo :=
    if cityRecords.length = 0 && apiResults.webSearch.isSome
    then some (extractWebResults apiResults.webSearch)
    else none
  { cities := cityRecords,
    comparison := comparison,
    generalInfo := generalInfo,
    originalQuery := parsedIntent.originalQuery,
    intent := parsedIntent.intent,
    error := none }

/-! ### Retry executors.
An operation under retry is modelled as the sequence of its attempt outcomes:
`apiCall i` is what the i-th invocation (0-based) returns or throws.  A trace
records the final outcome (Except.error is a thrown exception escaping the
executor), the number of attempts made, and the sleeps inserted between them. -/

instance exceptDecidableEq {ε α : Type} [DecidableEq ε] [DecidableEq α] :
    DecidableEq (Except ε α) := fun a b =>
  match a, b with
  | .ok x, .ok y => decidable_of_iff (x = y) (by simp)
  | .ok _, .error _ => .isFalse (by simp)
  | .error _, .ok _ => .isFalse (by simp)
  | .error x, .error y => decidable_of_iff (x = y) (by simp)

structure RetryTrace (α : Type) where
  result : Except String α
  attempts : ℕ
  delays : List ℕ
deriving DecidableEq, Repr

/-- The loop of withRetry (api-tools): attempts 1..retries+1, sleeping the
current delay after each non-final failure and doubling it; after the last
failure the exception is rethrown. -/
def withRetryAux (apiCall : ℕ → Except String α) :
    (retries delay attemptIdx : ℕ) → RetryTrace α
  | retries, delay, attemptIdx =>
    match apiCall attemptIdx with
    | .ok v => ⟨.ok v, 1, []⟩
    | .error e =>
      match retries with
      | 0 => ⟨.error e, 1, []⟩
      | r + 1 =>
        let t := withRetryAux apiCall r (delay * 2) (attemptIdx + 1)
        ⟨t.result, t.attempts + 1, delay :: t.delays⟩

/-- withRetry (api-tools). -/
def withRetry (apiCall : ℕ → Except String α) (retries delay : ℕ) : RetryTrace α :=
  withRetryAux apiCall retries delay 0

/-- RetryUtil.calculateDelay. -/
def calculateDelay (baseDelay maxDelay retryCount : ℕ) : ℕ :=
  min (baseDelay * 2 ^ retryCount) maxDelay

/-- The loop of RetryUtil.executeWithRetry, with `fuel = maxRetries - retryCount`:
on failure the error is rethrown when retryCount has reached maxRetries or the
error is not retryable, else the computed backoff is slept and the loop goes on.
The token acquisition on the shared limiter does not affect result, attempt
count or backoff delays and is left out of the trace. -/
def executeWithRetryAux (operation : ℕ → Except String α) (shouldRetry : String → Bool)
    (baseDelay maxDelay : ℕ) : (retryCount fuel : ℕ) → RetryTrace α
  | retryCount, fuel =>
    match operation retryCount with
    | .ok v => ⟨.ok v, 1, []⟩
    | .error e =>
      match fuel with
      | 0 => ⟨.error e, 1, []⟩
      | f + 1 =>
        if shouldRetry e then
          let t := executeWithRetryAux operation shouldRetry baseDelay maxDelay
                     (retryCount + 1) f
          ⟨t.result, t.attempts + 1, calculateDelay baseDelay maxDelay retryCount :: t.delays⟩
        else ⟨.error e, 1, []⟩

/-- RetryUtil.executeWithRetry. -/
def executeWithRetry (operation : ℕ → Except String α) (shouldRetry : String → Bool)
    (maxRetries baseDelay maxDelay : ℕ) : RetryTrace α :=
  executeWithRetryAux operation shouldRetry baseDelay maxDelay 0 maxRetries

/-! ### APIOrchestrator (src/modules/orchestration/APIOrchestrator.ts) -/

/-- The value callApi hands back for one provider: the payload, or the
error object built in the catch block — never a thrown exception. -/
inductive ApiResult (α : Type) where
  | ok (payload : α)
  | errObj (msg : String) (details : String)
deriving DecidableEq, Repr

/-- APIOrchestrator.callApi: run the adapter through withRetry with
retries 2 and delay 1000; catch any exception into an error object. -/
def callApi (apiName : String) (apiCall : ℕ → Except String α) : ApiResult α :=
  match (withRetry apiCall 2 1000).result with
  | .ok v => .ok v
  | .error e => .errObj ("Error calling " ++ apiName) e

/-- APIOrchestrator.callMultipleApis: one entry per requested API name. -/
def callMultipleApis (apiNames : List String)
    (apiCalls : String → ℕ → Except String α) : List (String × ApiResult α) :=
  apiNames.map (fun n => (n, callApi n (apiCalls n)))

/-- APIOrchestrator.getRequiredApis. -/
def getRequiredApis (intent : QueryIntent) : List String :=
  let baseApis := ["webSearch"]
  match intent with
  | .CITY_INFO => baseApis ++ ["cityInfo", "news"]
  | .CITY_COMPARISON => baseApis ++ ["cityInfo", "costOfLiving", "housingMarket"]
  | .NEIGHBORHOOD_RECOMMENDATION => baseApis ++ ["cityInfo", "neighborhoods"]
  | .HOUSING_MARKET => baseApis ++ ["cityInfo", "housingMarket", "neighborhoods"]
  | .JOB_OPPORTUNITIES => baseApis ++ ["cityInfo", "jobOpportunities"]
  | .SCHOOL_DISTRICTS => baseApis ++ ["cityInfo", "schoolDistricts"]
  | .TRANSPORTATION => baseApis ++ ["cityInfo", "transportation"]
  | .COST_OF_LIVING => baseApis ++ ["cityInfo", "costOfLiving", "housingMarket"]
  | .LIFESTYLE_MATCH => baseApis ++ ["cityInfo", "neighborhoods", "news"]
  | .RELOCATION_LOGISTICS => baseApis ++ ["cityInfo"]
  | .GENERAL_ADVICE => baseApis
  | .OTHER => baseApis

/-- The error-shaped CityInfoPayload produced when the cityInfo call errors. -/
def cityInfoErrShape (msg : String) : CityInfoPayload :=
  { urbanArea := none, city := none, fallbackData := none, error := some msg }

def newsErrShape (msg : String) : NewsPayload :=
  { articles := none, error := some msg }

def webSearchErrShape (msg : String) : WebSearchPayload :=
  { organic := none, error := some msg }

def summariesErrShape (msg : String) : SummariesPayload :=
  { summaries := none, searchResults := none, error := some msg }

/-- Lower an ApiResult into the payload slot of the result map, the way the
untyped JS record carries either the payload or the catch-block error object. -/
def ofApiResult (errShape : String → α) : ApiResult α → α
  | .ok p => p
  | .errObj _ details => errShape details

/-- The per-provider adapter operations of one orchestrated request
(each is the attempt-outcome sequence seen by withRetry). -/
structure FetchOps where
  cityInfoOp : ℕ → Except String CityInfoPayload
  webSearchOp : ℕ → Except String WebSearchPayload
  newsOp : ℕ → Except String NewsPayload
  housingMarketOp : ℕ → Except String SummariesPayload

/-- The orchestrated fetch for a request needing cityInfo, webSearch, news and
housingMarket: every provider slot is filled from the corresponding callApi
result, successes with the payload and failures with the error object. -/
def fetchResults (ops : FetchOps) : APIResults :=
  { cityInfo := some (ofApiResult cityInfoErrShape (callApi "cityInfo" ops.cityInfoOp)),
    webSearch := some (ofApiResult webSearchErrShape (callApi "webSearch" ops.webSearchOp)),
    news := some (ofApiResult newsErrShape (callApi "news" ops.newsOp)),
    housingMarket :=
      some (ofApiResult summariesErrShape (callApi "housingMarket" ops.housingMarketOp)) }

/-! ### RateLimiter (src/utils/RateLimiter.ts).
A single token bucket shared by every provider; times are in milliseconds and
token counts are rationals since refill is continuous. -/

structure RateLimiterCfg where
  maxTokens : ℚ
  refillRate : ℚ
  refillInterval : ℚ
deriving DecidableEq, Repr

structure RateLimiterState where
  tokens : ℚ
  lastRefill : ℚ
deriving DecidableEq, Repr

/-- RateLimiter.refillTokens. -/
def refillTokens (cfg : RateLimiterCfg) (s : RateLimiterState) (now : ℚ) :
    RateLimiterState :=
  { tokens := min cfg.maxTokens
      (s.tokens + (now - s.lastRefill) / cfg.refillInterval * cfg.refillRate),
    lastRefill := now }

structure AcquireResult where
  admitted : Bool
  waitMs : ℚ
  state : RateLimiterState
deriving DecidableEq, Repr

/-- RateLimiter.acquireToken: refill, and when fewer than one token is left,
sleep `(1 - tokens) * (refillInterval / refillRate)` ms and refill again at the
wake-up time; then take one token.  The call always proceeds. -/
def acquireToken (cfg : RateLimiterCfg) (s : RateLimiterState) (now : ℚ) :
    AcquireResult :=
  let s1 := refillTokens cfg s now
  if s1.tokens < 1 then
    let waitTime := (1 - s1.tokens) * (cfg.refillInterval / cfg.refillRate)
    let s2 := refillTokens cfg s1 (now + waitTime)
    { admitted := true, waitMs := waitTime,
      state := { s2 with tokens := s2.tokens - 1 } }
  else
    { admitted := true, waitMs := 0,
      state := { s1 with tokens := s1.tokens - 1 } }

/-! ### Response cache (api-integrations.ts: getFromCache / storeInCache) -/

def CACHE_TTL : ℚ := 24 * 60 * 60 * 1000

structure CacheEntry (α : Type) where
  data : α
  timestamp : ℚ
  expiry : ℚ
deriving DecidableEq, Repr

def Cache (α : Type) := List (String × CacheEntry α)

/-- storeInCache. -/
def storeInCache (c : Cache α) (cacheKey : String) (data : α) (now : ℚ) : Cache α :=
  objInsert c cacheKey { data := data, timestamp := now, expiry := now + CACHE_TTL }

/-- getFromCache, returning the hit (if any) and the possibly shrunk cache:
an entry older than CACHE_TTL is deleted on lookup and reported as a miss. -/
def getFromCache (c : Cache α) (cacheKey : String) (now : ℚ) :
    Option α × Cache α :=
  match objLookup c cacheKey with
  | none => (none, c)
  | some e =>
    if CACHE_TTL < now - e.timestamp then (none, objErase c cacheKey)
    else (some e.data, c)

/-! ### Webpage summarization and the housing-market gatherer (api-tools). -/

/-- The body shape of a Jina Reader response. -/
structure JinaData where
  summary : Option String
  key_points : Option (List String)
deriving DecidableEq, Repr

structure SummaryOut where
  summary : Option String := none
  keyPoints : List String := []
  error : Option String := none
deriving DecidableEq, Repr

/-- summarizeWebpage: the network outcome for the given URL either yields the
response body, or throws and is caught into an error object. -/
def summarizeWebpage (response : Except String JinaData) : SummaryOut :=
  match response with
  | .ok d => { summary := some (d.summary.getD ""), keyPoints := d.key_points.getD [],
               error := none }
  | .error _ => { summary := none, keyPoints := [],
                  error := some "Failed to summarize webpage" }

/-- One element pushed onto `summaries` by getHousingMarketData. -/
structure SummaryEntry where
  title : Option String
  source : Option String
  summary : Option String
  keyPoints : List String
deriving DecidableEq, Repr

/-- The summarization loop of getHousingMarketData over the (already truncated)
candidate results: every result with a truthy link is summarized, and every
summary that is not error-shaped is collected.  The second component records
which URLs were handed to the summarizer, in order. -/
def summarizeLoop (results : List OrganicResult)
    (fetchSummary : String → Except String JinaData) :
    List SummaryEntry × List String :=
  match results with
  | [] => ([], [])
  | r :: t =>
    let rest := summarizeLoop t fetchSummary
    match r.link with
    | some link =>
      if link = "" then rest
      else
        let s := summarizeWebpage (fetchSummary link)
        if s.error = none then
          (⟨r.title, some link, s.summary, s.keyPoints⟩ :: rest.1, link :: rest.2)
        else (rest.1, link :: rest.2)
    | none => rest

structure HousingMarketData where
  searchResults : List OrganicResult
  summaries : List SummaryEntry
  calledUrls : List String
deriving DecidableEq, Repr

/-- getHousingMarketData, from the web-search payload for the city onward:
`for (i = 0; i < Math.min(3, organic.length); i++)` summarize organic[i].link.
calledUrls instruments which URLs the loop actually summarized. -/
def getHousingMarketData (searchResults : WebSearchPayload)
    (fetchSummary : String → Except String JinaData) : HousingMarketData :=
  let organic := searchResults.organic.getD []
  let r := summarizeLoop (organic.take 3) fetchSummary
  { searchResults := organic, summaries := r.1, calledUrls := r.2 }

/-! ### Concrete fixtures used by witnesses and counterexamples. -/

/-- A city whose only score category is housing. -/
def cityA2 : CityData := { name := "A", scores := some [("housing", 7)] }

/-- A city whose only score category is cost. -/
def cityB2 : CityData := { name := "B", scores := some [("cost", 5)] }

/-- Three shared categories: A wins x, y and z are exact ties. -/
def cityA9 : CityData := { name := "A", scores := some [("x", 2), ("y", 5), ("z", 5)] }

def cityB9 : CityData := { name := "B", scores := some [("x", 1), ("y", 5), ("z", 5)] }

/-- The end-to-end scenario of the spec: Austin 7/6 vs Denver 5/8. -/
def cityAus : CityData :=
  { name := "Austin", scores := some [("housing", 7), ("costOfLiving", 6)] }

def cityDen : CityData :=
  { name := "Denver", scores := some [("housing", 5), ("costOfLiving", 8)] }

def neighborhoodsErrShape (msg : String) : NeighborhoodsPayload :=
  { features := none, error := some msg }

/-- A result map in which every provider was called and every call failed:
each slot holds the error object of the corresponding catch block. -/
def errResults (m₀ m₁ m₂ m₃ m₄ m₅ m₆ m₇ : String) : APIResults :=
  { cityInfo := some (cityInfoErrShape m₀),
    webSearch := some (webSearchErrShape m₁),
    news := some (newsErrShape m₂),
    neighborhoods := some (neighborhoodsErrShape m₃),
    housingMarket := some (summariesErrShape m₄),
    jobOpportunities := some (summariesErrShape m₅),
    schoolDistricts := some (summariesErrShape m₆),
    transportation := some (summariesErrShape m₇) }

/-- News and housing-market calls failed, nothing else was requested. -/
def rErr3 : APIResults :=
  { news := some (newsErrShape "Failed to get news"),
    housingMarket := some (summariesErrShape "Failed to get housing market data") }

def uaW : UrbanArea :=
  { name := some "Austin", fullName := some "Austin, Texas",
    scores := some { categories := some [{ name := "Housing", score_out_of_10 := some 7 }] } }

def pW : CityInfoPayload :=
  { urbanArea := some uaW, city := none, fallbackData := none, error := none }

/-- One provider (cityInfo) succeeds on the first attempt, the other three
always fail with a server error. -/
def opsW : FetchOps :=
  { cityInfoOp := fun _ => .ok pW,
    webSearchOp := fun _ => .error "ServerError",
    newsOp := fun _ => .error "ServerError",
    housingMarketOp := fun _ => .error "ServerError" }

/-- Fails on attempt 0, succeeds from attempt 1 on. -/
def opFailOnce : ℕ → Except String ℕ :=
  fun i => if i < 1 then Except.error "e" else Except.ok 42

/-- Two search results with distinct links, both summarizable. -/
def organicW : List OrganicResult :=
  [{ title := some "R1", snippet := some "s1", link := some "u1" },
   { title := some "R2", snippet := some "s2", link := some "u2" }]

def fetchW : String → Except String JinaData :=
  fun url => Except.ok { summary := some ("summary of " ++ url), key_points := some [] }

/-- Bucket of capacity one, one token per second. -/
def cfgB : RateLimiterCfg := { maxTokens := 1, refillRate := 1, refillInterval := 1000 }

def rlInit : RateLimiterState := { tokens := 1, lastRefill := 0 }

def piNY : ParsedIntent :=
  { intent := .CITY_INFO, locations := { cities := none },
    originalQuery := "tell me about the city" }

def rNY : APIResults := { cityInfo := some (cityInfoErrShape "City not found") }

/-! ## Helper lemmas -/

theorem objLookup_objInsert_self (l : List (String × β)) (k : String) (v : β) :
    objLookup (objInsert l k v) k = some v := by
  induction l with
  | nil => simp [objInsert, objLookup]
  | cons p t ih =>
    by_cases h : p.1 = k
    · simp [objInsert, h, objLookup]
    · simp [objInsert, h, objLookup, ih]

theorem objLookup_objErase_self (l : List (String × β)) (k : String) :
    objLookup (objErase l k) k = none := by
  induction l with
  | nil => simp [objErase, objLookup]
  | cons p t ih =>
    by_cases h : p.1 = k
    · simpa [objErase, h] using ih
    · simpa [objErase, h, objLookup] using ih

theorem objLookup_isSome_iff (l : List (String × β)) (k : String) :
    (objLookup l k).isSome = true ↔ k ∈ l.map Prod.fst := by
  induction l with
  | nil => simp [objLookup]
  | cons p t ih =>
    by_cases h : p.1 = k
    · simp [objLookup, h]
    · simp [objLookup, h, ih, Ne.symm h]

theorem mem_insertionDedup_aux (l : List String) (k : String) :
    ∀ acc, k ∈ l.foldl (fun acc k => if k ∈ acc then acc else acc ++ [k]) acc
      ↔ k ∈ acc ∨ k ∈ l := by
  induction l with
  | nil => intro acc; simp
  | cons a t ih =>
    intro acc
    by_cases h : a ∈ acc
    · simp only [List.foldl, h, if_pos, List.mem_cons]
      rw [ih]
      constructor
      · rintro (hk | hk)
        · exact Or.inl hk
        · exact Or.inr (Or.inr hk)
      · rintro (hk | hk | hk)
        · exact Or.inl hk
        · exact Or.inl (hk ▸ h)
        · exact Or.inr hk
    · simp only [List.foldl, h, if_neg, not_false_iff, List.mem_cons]
      rw [ih]
      simp [List.mem_append]
      tauto

theorem mem_insertionDedup (l : List String) (k : String) :
    k ∈ insertionDedup l ↔ k ∈ l := by
  simpa [insertionDedup] using mem_insertionDedup_aux l k []

theorem foldl_compareStep_keys (s1 s2 : List (String × ℚ)) (n1 n2 : String) :
    ∀ (cats : List String) (acc : List (String × CategoryComparison) × ℕ × ℕ),
      ((cats.foldl (compareStep s1 s2 n1 n2) acc).1).map Prod.fst
        = acc.1.map Prod.fst ++ cats := by
  intro cats
  induction cats with
  | nil => intro acc; simp
  | cons c t ih =>
    intro acc
    rw [List.foldl_cons, ih]
    by_cases h1 : (objLookup s2 c).getD 0 < (objLookup s1 c).getD 0
    · simp [compareStep, h1]
    · by_cases h2 : (objLookup s1 c).getD 0 < (objLookup s2 c).getD 0
      · simp [compareStep, h1, h2]
      · simp [compareStep, h1, h2]

theorem foldl_compareStep_wins1 (s1 s2 : List (String × ℚ)) (n1 n2 : String) :
    ∀ (cats : List String) (acc : List (String × CategoryComparison) × ℕ × ℕ),
      (cats.foldl (compareStep s1 s2 n1 n2) acc).2.1
        = acc.2.1 + cats.countP
            (fun c => decide ((objLookup s2 c).getD 0 < (objLookup s1 c).getD 0)) := by
  intro cats
  induction cats with
  | nil => intro acc; simp
  | cons c t ih =>
    intro acc
    rw [List.foldl_cons, ih, List.countP_cons]
    by_cases h1 : (objLookup s2 c).getD 0 < (objLookup s1 c).getD 0
    · simp [compareStep, h1]; omega
    · by_cases h2 : (objLookup s1 c).getD 0 < (objLookup s2 c).getD 0
      · simp [compareStep, h1, h2]
      · simp [compareStep, h1, h2]

theorem foldl_compareStep_wins2 (s1 s2 : List (String × ℚ)) (n1 n2 : String) :
    ∀ (cats : List String) (acc : List (String × CategoryComparison) × ℕ × ℕ),
      (cats.foldl (compareStep s1 s2 n1 n2) acc).2.2
        = acc.2.2 + cats.countP
            (fun c => decide ((objLookup s1 c).getD 0 < (objLookup s2 c).getD 0)) := by
  intro cats
  induction cats with
  | nil => intro acc; simp
  | cons c t ih =>
    intro acc
    rw [List.foldl_cons, ih, List.countP_cons]
    by_cases h1 : (objLookup s2 c).getD 0 < (objLookup s1 c).getD 0
    · have h2 : ¬ (objLookup s1 c).getD 0 < (objLookup s2 c).getD 0 := lt_asymm h1
      simp [compareStep, h1, h2]
    · by_cases h2 : (objLookup s1 c).getD 0 < (objLookup s2 c).getD 0
      · simp [compareStep, h1, h2]; omega
      · simp [compareStep, h1, h2]

theorem summarizeLoop_called (fetchSummary : String → Except String JinaData) :
    ∀ (results : List OrganicResult),
      (summarizeLoop results fetchSummary).2
        = results.filterMap (fun r =>
            match r.link with
            | some l => if l = "" then none else some l
            | none => none) := by
  intro results
  induction results with
  | nil => simp [summarizeLoop]
  | cons r t ih =>
    match hl : r.link with
    | none => simp [summarizeLoop, List.filterMap_cons, hl, ih]
    | some l =>
      by_cases he : l = ""
      · simp [summarizeLoop, List.filterMap_cons, hl, he, ih]
      · by_cases hs : (summarizeWebpage (fetchSummary l)).error = none
        · simp [summarizeLoop, List.filterMap_cons, hl, he, hs, ih]
        · simp [summarizeLoop, List.filterMap_cons, hl, he, hs, ih]

theorem summarizeLoop_entries (fetchSummary : String → Except String JinaData) :
    ∀ (results : List OrganicResult),
      (summarizeLoop results fetchSummary).1
        = results.filterMap (fun r =>
            match r.link with
            | some l =>
              if l = "" then none
              else
                if (summarizeWebpage (fetchSummary l)).error = none then
                  some { title := r.title, source := some l,
                         summary := (summarizeWebpage (fetchSummary l)).summary,
                         keyPoints := (summarizeWebpage (fetchSummary l)).keyPoints }
                else none
            | none => none) := by
  intro results
  induction results with
  | nil => simp [summarizeLoop]
  | cons r t ih =>
    match hl : r.link with
    | none => simp [summarizeLoop, List.filterMap_cons, hl, ih]
    | some l =>
      by_cases he : l = ""
      · simp [summarizeLoop, List.filterMap_cons, hl, he, ih]
      · by_cases hs : (summarizeWebpage (fetchSummary l)).error = none
        · simp [summarizeLoop, List.filterMap_cons, hl, he, hs, ih]
        · simp [summarizeLoop, List.filterMap_cons, hl, he, hs, ih]

theorem executeWithRetryAux_ok {α : Type} (op : ℕ → Except String α)
    (baseDelay maxDelay : ℕ) (v : α) :
    ∀ (j rc fuel : ℕ),
      (∀ i, i < j → ∃ e, op (rc + i) = Except.error e) →
      op (rc + j) = Except.ok v → j ≤ fuel →
      executeWithRetryAux op (fun _ => true) baseDelay maxDelay rc fuel
        = ⟨Except.ok v, j + 1,
           (List.range j).map (fun i => calculateDelay baseDelay maxDelay (rc + i))⟩ := by
  intro j
  induction j with
  | zero =>
    intro rc fuel _ hsucc _
    rw [executeWithRetryAux]
    simp only [Nat.add_zero] at hsucc
    rw [hsucc]
    simp
  | succ j ih =>
    intro rc fuel hfail hsucc hle
    obtain ⟨e₀, he₀⟩ := hfail 0 (Nat.succ_pos j)
    rw [Nat.add_zero] at he₀
    match fuel, hle with
    | f + 1, hle =>
      rw [executeWithRetryAux, he₀]
      simp only
      have ht := ih (rc + 1) f
        (fun i hi => by
          obtain ⟨e, he⟩ := hfail (i + 1) (Nat.succ_lt_succ hi)
          exact ⟨e, by rw [show rc + 1 + i = rc + (i + 1) by omega]; exact he⟩)
        (by rw [show rc + 1 + j = rc + (j + 1) by omega]; exact hsucc)
        (Nat.le_of_succ_le_succ hle)
      rw [ht]
      have hmap : (List.range (j+1)).map (fun i => calculateDelay baseDelay maxDelay (rc + i))
          = calculateDelay baseDelay maxDelay rc
            :: (List.range j).map (fun i => calculateDelay baseDelay maxDelay (rc + 1 + i)) := by
        rw [List.range_succ_eq_map, List.map_cons, List.map_map]
        refine congrArg₂ _ (by rw [Nat.add_zero]) ?_
        refine List.map_congr_left ?_
        intro i _
        simp only [Function.comp_apply]
        congr 1
        omega
      simp [hmap]

theorem executeWithRetryAux_fail {α : Type} (op : ℕ → Except String α)
    (baseDelay maxDelay : ℕ) (errs : ℕ → String) :
    ∀ (fuel rc : ℕ),
      (∀ i, i ≤ fuel → op (rc + i) = Except.error (errs (rc + i))) →
      executeWithRetryAux op (fun _ => true) baseDelay maxDelay rc fuel
        = ⟨Except.error (errs (rc + fuel)), fuel + 1,
           (List.range fuel).map (fun i => calculateDelay baseDelay maxDelay (rc + i))⟩ := by
  intro fuel
  induction fuel with
  | zero =>
    intro rc hfail
    have h0 := hfail 0 (Nat.le_refl 0)
    rw [Nat.add_zero] at h0
    rw [executeWithRetryAux, h0]
    simp
  | succ f ih =>
    intro rc hfail
    have h0 := hfail 0 (Nat.zero_le _)
    rw [Nat.add_zero] at h0
    rw [executeWithRetryAux, h0]
    simp only
    have ht := ih (rc + 1)
      (fun i hi => by
        have := hfail (i + 1) (Nat.succ_le_succ hi)
        rw [show rc + 1 + i = rc + (i + 1) by omega]
        exact this)
    rw [ht]
    have hmap : (List.range (f+1)).map (fun i => calculateDelay baseDelay maxDelay (rc + i))
        = calculateDelay baseDelay maxDelay rc
          :: (List.range f).map (fun i => calculateDelay baseDelay maxDelay (rc + 1 + i)) := by
      rw [List.range_succ_eq_map, List.map_cons, List.map_map]
      refine congrArg₂ _ (by rw [Nat.add_zero]) ?_
      refine List.map_congr_left ?_
      intro i _
      simp only [Function.comp_apply]
      congr 1
      omega
    have harg : rc + 1 + f = rc + (f + 1) := by omega
    simp [hmap, harg]

/-! ## Claims -/

/-- C1: when one provider call succeeds and the others return errors, the
orchestrator still hands back one result per requested provider (callMultipleApis
is total and keeps every name), the CITY_COMPARISON intent requires several
providers, and fusion still produces a CityData record for the city whose name,
fullName and scores come from the succeeding cityInfo payload while each failing
provider contributes no data items (empty news, web and housing contents). -/
theorem orchestrator_partial_failure_tolerance :
    (∀ (names : List String) (calls : String → ℕ → Except String ℕ),
        (callMultipleApis names calls).map Prod.fst = names)
    ∧ getRequiredApis QueryIntent.CITY_COMPARISON
        = ["webSearch", "cityInfo", "costOfLiving", "housingMarket"]
    ∧ ∀ (ops : FetchOps) (p : CityInfoPayload) (ua : UrbanArea) (m₁ m₂ m₃ : String),
        (withRetry ops.cityInfoOp 2 1000).result = Except.ok p →
        p.urbanArea = some ua → p.fallbackData = none →
        (withRetry ops.webSearchOp 2 1000).result = Except.error m₁ →
        (withRetry ops.newsOp 2 1000).result = Except.error m₂ →
        (withRetry ops.housingMarketOp 2 1000).result = Except.error m₃ →
        (processCityData "Austin" (fetchResults ops)).name = "Austin"
        ∧ (processCityData "Austin" (fetchResults ops)).fullName = jsOrS ua.fullName ua.name
        ∧ (processCityData "Austin" (fetchResults ops)).scores = extractScores (some p)
        ∧ (processCityData "Austin" (fetchResults ops)).news = some []
        ∧ (processCityData "Austin" (fetchResults ops)).webResults = some []
        ∧ (processCityData "Austin" (fetchResults ops)).housingMarket
            = some { summary := none, sources := none, highlights := [] } := by
  refine ⟨?_, rfl, ?_⟩
  · intro names calls
    simp [callMultipleApis, Function.comp_def]
  · intro ops p ua m₁ m₂ m₃ hok hua hfb hw hn hh
    have h1 : callApi "cityInfo" ops.cityInfoOp = ApiResult.ok p := by simp [callApi, hok]
    have h2 : callApi "webSearch" ops.webSearchOp
        = ApiResult.errObj ("Error calling " ++ "webSearch") m₁ := by simp [callApi, hw]
    have h3 : callApi "news" ops.newsOp
        = ApiResult.errObj ("Error calling " ++ "news") m₂ := by simp [callApi, hn]
    have h4 : callApi "housingMarket" ops.housingMarketOp
        = ApiResult.errObj ("Error calling " ++ "housingMarket") m₃ := by simp [callApi, hh]
    have hr : fetchResults ops
        = { cityInfo := some p,
            webSearch := some (webSearchErrShape m₁),
            news := some (newsErrShape m₂),
            housingMarket := some (summariesErrShape m₃) } := by
      rw [fetchResults, h1, h2, h3, h4]; rfl
    rw [hr]
    refine ⟨rfl, ?_, ?_, ?_, ?_, ?_⟩
    · simp [processCityData, hua]
    · simp [processCityData, hua, hfb]
    · simp [processCityData, newsErrShape, extractNews]
    · simp [processCityData, webSearchErrShape, extractWebResults]
    · simp [processCityData, summariesErrShape, extractMarket]

/-- C1 witness: the scenario instantiated with a concrete Teleport payload for
Austin and three providers that always fail with a server error. -/
theorem orchestrator_partial_failure_tolerance_witness :
    (processCityData "Austin" (fetchResults opsW)).name = "Austin"
    ∧ (processCityData "Austin" (fetchResults opsW)).fullName = jsOrS uaW.fullName uaW.name
    ∧ (processCityData "Austin" (fetchResults opsW)).scores = extractScores (some pW)
    ∧ (processCityData "Austin" (fetchResults opsW)).news = some []
    ∧ (processCityData "Austin" (fetchResults opsW)).webResults = some []
    ∧ (processCityData "Austin" (fetchResults opsW)).housingMarket
        = some { summary := none, sources := none, highlights := [] } :=
  orchestrator_partial_failure_tolerance.2.2 opsW pW uaW
    "ServerError" "ServerError" "ServerError" rfl rfl rfl rfl rfl rfl

/-- C2 counterexample: the claim says a per-category comparison entry exists
only for categories present in both score maps, but for city A scoring only
housing and city B scoring only cost, compareCities produces a housing entry
even though housing is absent from city B's scores (the missing side is read
as 0 through the `|| 0` default). -/
theorem compare_union_counterexample :
    (compareCities [cityA2, cityB2]).map
        (fun comp => (objLookup comp.categories "housing").isSome) = some true
    ∧ cityB2.scores = some [("cost", 5)]
    ∧ objLookup [("cost", (5:ℚ))] "housing" = none := by
  refine ⟨?_, rfl, by simp [objLookup]⟩
  simp only [compareCities, cityA2, cityB2, Option.map_some']
  refine congrArg some ?_
  rw [objLookup_isSome_iff, foldl_compareStep_keys]
  simp [mem_insertionDedup, insertionDedup]

/-- C2 amended: the per-category comparison map has an entry for every category
in the union of the two records' score keys — also for a category present in
exactly one record, whose missing side is treated as score 0. -/
theorem compareCities_iterates_union (c1 c2 : CityData) (rest : List CityData)
    (s1 s2 : List (String × ℚ)) (h1 : c1.scores = some s1) (h2 : c2.scores = some s2) :
    ∃ comp, compareCities (c1 :: c2 :: rest) = some comp
      ∧ ∀ cat, ((objLookup comp.categories cat).isSome = true
          ↔ (cat ∈ s1.map Prod.fst ∨ cat ∈ s2.map Prod.fst)) := by
  simp only [compareCities, h1, h2]
  refine ⟨_, rfl, ?_⟩
  intro cat
  rw [objLookup_isSome_iff, foldl_compareStep_keys]
  simp [mem_insertionDedup]

/-- C2 witness: the amended statement at the two one-category cities. -/
theorem compareCities_iterates_union_witness :
    ∃ comp, compareCities [cityA2, cityB2] = some comp
      ∧ ((objLookup comp.categories "housing").isSome = true
          ↔ ("housing" ∈ ([("housing", (7:ℚ))].map Prod.fst)
            ∨ "housing" ∈ ([("cost", (5:ℚ))].map Prod.fst))) := by
  obtain ⟨comp, hc, hiff⟩ :=
    compareCities_iterates_union cityA2 cityB2 [] [("housing", 7)] [("cost", 5)] rfl rfl
  exact ⟨comp, hc, hiff "housing"⟩

/-- C3 counterexample: with error-shaped news and housing results, the fused
record's news field is the empty list — not absent — and its housing field is a
summary object with empty parts — not absent — contradicting the claim that an
error leaves the field absent. -/
theorem error_payload_empty_fields_counterexample :
    (processCityData "Austin" rErr3).news = some []
    ∧ (processCityData "Austin" rErr3).news ≠ none
    ∧ (processCityData "Austin" rErr3).housingMarket
        = some { summary := none, sources := none, highlights := [] }
    ∧ (processCityData "Austin" rErr3).housingMarket ≠ none :=
  ⟨rfl, by simp [processCityData, rErr3], rfl, by simp [processCityData, rErr3]⟩

/-- C3 amended: an error-shaped provider result still sets the corresponding
field, to an empty value — news, webResults and neighborhoods become empty
lists, the four summary fields become objects with no text, no sources and
empty highlights; only scores and fullName stay absent on a cityInfo error; a
field is truly absent exactly when the provider result is missing entirely. -/
theorem error_payload_fields_amended (city m₀ m₁ m₂ m₃ m₄ m₅ m₆ m₇ : String) :
    (processCityData city (errResults m₀ m₁ m₂ m₃ m₄ m₅ m₆ m₇)).scores = none
    ∧ (processCityData city (errResults m₀ m₁ m₂ m₃ m₄ m₅ m₆ m₇)).fullName = none
    ∧ (processCityData city (errResults m₀ m₁ m₂ m₃ m₄ m₅ m₆ m₇)).news = some []
    ∧ (processCityData city (errResults m₀ m₁ m₂ m₃ m₄ m₅ m₆ m₇)).webResults = some []
    ∧ (processCityData city (errResults m₀ m₁ m₂ m₃ m₄ m₅ m₆ m₇)).neighborhoods = some []
    ∧ (processCityData city (errResults m₀ m₁ m₂ m₃ m₄ m₅ m₆ m₇)).housingMarket
        = some { summary := none, sources := none, highlights := [] }
    ∧ (processCityData city (errResults m₀ m₁ m₂ m₃ m₄ m₅ m₆ m₇)).jobMarket
        = some { summary := none, sources := none, highlights := [] }
    ∧ (processCityData city (errResults m₀ m₁ m₂ m₃ m₄ m₅ m₆ m₇)).transportation
        = some { summary := none, sources := none, highlights := [] }
    ∧ (processCityData city (errResults m₀ m₁ m₂ m₃ m₄ m₅ m₆ m₇)).schools
        = some { summary := none, sources := none, highlights := [] }
    ∧ (processCityData city {}).news = none
    ∧ (processCityData city {}).housingMarket = none :=
  ⟨rfl, rfl, rfl, rfl, rfl, rfl, rfl, rfl, rfl, rfl, rfl⟩

/-- C4 counterexample: for an operation that always fails, the retry executor's
terminal outcome is the rethrown exception (the error side of Except) after all
three attempts — it is not returned as a tagged error value; the conversion to
an error object happens only in callApi's catch, outside the executor. -/
theorem retry_throws_counterexample :
    withRetry (fun _ => (Except.error "connection failed" : Except String ℕ)) 2 1000
      = ⟨Except.error "connection failed", 3, [1000, 2000]⟩ := rfl

/-- C4 amended: terminal failures propagate out of withRetry as exceptions, and
APIOrchestrator.callApi catches them and returns the tagged error object, so
the caller of callApi receives a value, never an exception. -/
theorem callApi_converts_exception (apiName : String) (apiCall : ℕ → Except String ℕ) :
    (∀ e, (withRetry apiCall 2 1000).result = Except.error e →
        callApi apiName apiCall = ApiResult.errObj ("Error calling " ++ apiName) e)
    ∧ (∀ v, (withRetry apiCall 2 1000).result = Except.ok v →
        callApi apiName apiCall = ApiResult.ok v) := by
  constructor
  · intro e h; simp [callApi, h]
  · intro v h; simp [callApi, h]

/-- C4 witness: the amended statement at an always-failing operation. -/
theorem callApi_converts_exception_witness :
    callApi "News API" (fun _ => (Except.error "boom" : Except String ℕ))
      = ApiResult.errObj "Error calling News API" "boom" :=
  (callApi_converts_exception "News API" (fun _ => Except.error "boom")).1 "boom" rfl

/-- C5: for an operation failing on the first k attempts and succeeding on
attempt k, the retry executor returns the success when maxRetries is at least
k, fails after exactly maxRetries + 1 attempts otherwise, and in both cases the
delay before the n-th retry is min(baseDelay * 2 ^ (n - 1), maxDelay). -/
theorem executeWithRetry_fails_k_then_succeeds {α : Type} (op : ℕ → Except String α)
    (k : ℕ) (v : α) (errs : ℕ → String)
    (hfail : ∀ i, i < k → op i = Except.error (errs i)) (hsucc : op k = Except.ok v)
    (maxRetries baseDelay maxDelay : ℕ) :
    (k ≤ maxRetries →
      executeWithRetry op (fun _ => true) maxRetries baseDelay maxDelay
        = ⟨Except.ok v, k + 1,
           (List.range k).map (fun n => min (baseDelay * 2 ^ n) maxDelay)⟩)
    ∧ (maxRetries < k →
      executeWithRetry op (fun _ => true) maxRetries baseDelay maxDelay
        = ⟨Except.error (errs maxRetries), maxRetries + 1,
           (List.range maxRetries).map (fun n => min (baseDelay * 2 ^ n) maxDelay)⟩) := by
  constructor
  · intro hle
    unfold executeWithRetry
    rw [executeWithRetryAux_ok op baseDelay maxDelay v k 0 maxRetries
      (fun i hi => ⟨errs i, by simpa using hfail i hi⟩) (by simpa using hsucc) hle]
    simp [calculateDelay]
  · intro hlt
    unfold executeWithRetry
    rw [executeWithRetryAux_fail op baseDelay maxDelay errs maxRetries 0
      (fun i hi => by simpa using hfail i (lt_of_le_of_lt hi hlt))]
    simp [calculateDelay]

/-- C5 witness: one initial failure then success, under maxRetries 2 (success
after 2 attempts with a single 1000 ms delay) and under maxRetries 0 (failure
after exactly 1 attempt, no delay). -/
theorem executeWithRetry_fails_k_then_succeeds_witness :
    executeWithRetry opFailOnce (fun _ => true) 2 1000 10000
      = ⟨Except.ok 42, 2, [1000]⟩
    ∧ executeWithRetry opFailOnce (fun _ => true) 0 1000 10000
      = ⟨Except.error "e", 1, []⟩ := by
  have h1 := (executeWithRetry_fails_k_then_succeeds opFailOnce 1 42 (fun _ => "e")
    (fun i hi => by
      have : i = 0 := by omega
      subst this; rfl)
    rfl 2 1000 10000).1 (by omega)
  have h2 := (executeWithRetry_fails_k_then_succeeds opFailOnce 1 42 (fun _ => "e")
    (fun i hi => by
      have : i = 0 := by omega
      subst this; rfl)
    rfl 0 1000 10000).2 (by omega)
  constructor
  · rw [h1]; decide
  · rw [h2]; decide

/-- C6 counterexample: with two candidate URLs whose summarizations both
succeed with non-empty summaries, the housing-market gatherer still summarizes
the second URL after the first one succeeded (both URLs appear in the call
trace and both summaries are collected) — there is no early exit. -/
theorem summarize_no_early_exit_counterexample :
    (getHousingMarketData { organic := some organicW } fetchW).calledUrls = ["u1", "u2"]
    ∧ (summarizeWebpage (fetchW "u1")).summary = some "summary of u1"
    ∧ "summary of u1" ≠ ""
    ∧ (getHousingMarketData { organic := some organicW } fetchW).summaries.length = 2 :=
  ⟨rfl, rfl, by decide, rfl⟩

/-- C6 amended: the gatherer summarizes every one of the first min(3, n)
candidate results that has a truthy link, regardless of earlier successes, and
collects every summarization that is not error-shaped (even an empty one). -/
theorem getHousingMarketData_summarizes_top3 (searchResults : WebSearchPayload)
    (fetchSummary : String → Except String JinaData) :
    (getHousingMarketData searchResults fetchSummary).calledUrls
      = ((searchResults.organic.getD []).take 3).filterMap (fun r =>
          match r.link with
          | some l => if l = "" then none else some l
          | none => none)
    ∧ (getHousingMarketData searchResults fetchSummary).summaries
      = ((searchResults.organic.getD []).take 3).filterMap (fun r =>
          match r.link with
          | some l =>
            if l = "" then none
            else
              if (summarizeWebpage (fetchSummary l)).error = none then
                some { title := r.title, source := some l,
                       summary := (summarizeWebpage (fetchSummary l)).summary,
                       keyPoints := (summarizeWebpage (fetchSummary l)).keyPoints }
              else none
          | none => none) :=
  ⟨summarizeLoop_called fetchSummary _, summarizeLoop_entries fetchSummary _⟩

/-- C7 counterexample: with a bucket of capacity 1, the first call at time 0
exhausts the quota, yet the second admission check at time 0 — within the same
60-second window — is still admitted (after a 1000 ms wait), not refused; the
limiter takes no provider argument, so no per-provider quota exists. -/
theorem rate_limiter_never_refuses_counterexample :
    (acquireToken cfgB rlInit 0).admitted = true
    ∧ (acquireToken cfgB rlInit 0).state.tokens = 0
    ∧ acquireToken cfgB (acquireToken cfgB rlInit 0).state 0
        = { admitted := true, waitMs := 1000,
            state := { tokens := 0, lastRefill := 1000 } } := by
  refine ⟨?_, ?_, ?_⟩ <;> norm_num [acquireToken, refillTokens, cfgB, rlInit]

/-- C7 amended: the rate limiter is a single token bucket shared by all
providers; an acquisition is always admitted — when fewer than one token is
available it waits (1 - tokens) * (refillInterval / refillRate) ms, a strictly
positive delay, and otherwise it proceeds immediately. -/
theorem acquireToken_always_admits (cfg : RateLimiterCfg) (s : RateLimiterState) (now : ℚ)
    (hr : 0 < cfg.refillRate) (hi : 0 < cfg.refillInterval) :
    (acquireToken cfg s now).admitted = true
    ∧ ((refillTokens cfg s now).tokens < 1 →
        (acquireToken cfg s now).waitMs
          = (1 - (refillTokens cfg s now).tokens) * (cfg.refillInterval / cfg.refillRate)
        ∧ 0 < (acquireToken cfg s now).waitMs)
    ∧ (1 ≤ (refillTokens cfg s now).tokens → (acquireToken cfg s now).waitMs = 0) := by
  by_cases h : (refillTokens cfg s now).tokens < 1
  · refine ⟨by simp [acquireToken, h], fun _ => ⟨by simp [acquireToken, h], ?_⟩,
      fun h2 => absurd h (not_lt.mpr h2)⟩
    simp only [acquireToken, h, if_pos]
    exact mul_pos (by linarith) (div_pos hi hr)
  · exact ⟨by simp [acquireToken, h], fun h2 => absurd h2 h,
      fun _ => by simp [acquireToken, h]⟩

/-- C7 witness: the amended statement at an empty bucket of capacity 1. -/
theorem acquireToken_always_admits_witness :
    (acquireToken cfgB { tokens := 0, lastRefill := 0 } 0).admitted = true
    ∧ ((refillTokens cfgB { tokens := 0, lastRefill := 0 } 0).tokens < 1 →
        (acquireToken cfgB { tokens := 0, lastRefill := 0 } 0).waitMs
          = (1 - (refillTokens cfgB { tokens := 0, lastRefill := 0 } 0).tokens)
              * (cfgB.refillInterval / cfgB.refillRate)
        ∧ 0 < (acquireToken cfgB { tokens := 0, lastRefill := 0 } 0).waitMs)
    ∧ (1 ≤ (refillTokens cfgB { tokens := 0, lastRefill := 0 } 0).tokens →
        (acquireToken cfgB { tokens := 0, lastRefill := 0 } 0).waitMs = 0) :=
  acquireToken_always_admits cfgB { tokens := 0, lastRefill := 0 } 0
    (by norm_num [cfgB]) (by norm_num [cfgB])

/-- C8: storing a value and looking it up no later than CACHE_TTL afterwards
returns that value and leaves the cache unchanged; looking it up after
CACHE_TTL has elapsed returns none and removes the entry on that lookup. -/
theorem cache_roundtrip {α : Type} (c : Cache α) (key : String) (v : α) (t t₁ : ℚ) :
    (t₁ - t ≤ CACHE_TTL →
      getFromCache (storeInCache c key v t) key t₁ = (some v, storeInCache c key v t))
    ∧ (CACHE_TTL < t₁ - t →
      (getFromCache (storeInCache c key v t) key t₁).1 = none
      ∧ objLookup (getFromCache (storeInCache c key v t) key t₁).2 key = none) := by
  have hlk : objLookup (storeInCache c key v t) key
      = some { data := v, timestamp := t, expiry := t + CACHE_TTL } :=
    objLookup_objInsert_self c key _
  constructor
  · intro h
    unfold getFromCache
    rw [hlk]
    have : ¬ CACHE_TTL < t₁ - t := not_lt.mpr h
    simp [this]
  · intro h
    unfold getFromCache
    rw [hlk]
    dsimp only
    rw [if_pos h]
    exact ⟨rfl, objLookup_objErase_self _ _⟩

/-- C8 witness: a fresh store read back 5 ms later and read again one
millisecond past the 24-hour TTL. -/
theorem cache_roundtrip_witness :
    (getFromCache (storeInCache ([] : Cache ℕ) "city_data_austin" 7 0) "city_data_austin" 5
        = (some 7, storeInCache ([] : Cache ℕ) "city_data_austin" 7 0))
    ∧ ((getFromCache (storeInCache ([] : Cache ℕ) "city_data_austin" 7 0) "city_data_austin"
          (CACHE_TTL + 1)).1 = none
      ∧ objLookup (getFromCache (storeInCache ([] : Cache ℕ) "city_data_austin" 7 0)
          "city_data_austin" (CACHE_TTL + 1)).2 "city_data_austin" = none) :=
  ⟨(cache_roundtrip [] "city_data_austin" 7 0 5).1 (by norm_num [CACHE_TTL]),
   (cache_roundtrip [] "city_data_austin" 7 0 (CACHE_TTL + 1)).2 (by norm_num)⟩

/-- C9 counterexample: with scores A = x:2, y:5, z:5 and B = x:1, y:5, z:5, the
code declares A the overall winner although A wins only one of the three
compared categories — not a strict majority — while the spec-worded rule
(specStrictMajorityWinner) yields a tie on the same input. -/
theorem winner_not_strict_majority_counterexample :
    (compareCities [cityA9, cityB9]).map (fun comp => comp.winner) = some "A"
    ∧ specStrictMajorityWinner cityA9 cityB9 = some "tie" := by
  constructor
  · simp only [compareCities, cityA9, cityB9, Option.map_some']
    rw [foldl_compareStep_wins1, foldl_compareStep_wins2]
    simp [insertionDedup, objLookup, List.countP_cons, List.countP_nil, decide_eq_true_eq]
  · simp [specStrictMajorityWinner, cityA9, cityB9, insertionDedup, objLookup,
      List.countP_cons, List.countP_nil, decide_eq_true_eq]

/-- C9 amended: the overall winner is the city with strictly more category wins
than the other (equal-score categories count toward neither tally), equivalently
the city winning a strict majority of the decisively won categories; in
particular equal tallies — such as a 1-1 split — yield a tie. -/
theorem compareCities_winner_tally (c1 c2 : CityData) (rest : List CityData)
    (s1 s2 : List (String × ℚ)) (w1 w2 : ℕ)
    (h1 : c1.scores = some s1) (h2 : c2.scores = some s2)
    (hw1 : w1 = (insertionDedup (s1.map Prod.fst ++ s2.map Prod.fst)).countP
        (fun c => decide ((objLookup s2 c).getD 0 < (objLookup s1 c).getD 0)))
    (hw2 : w2 = (insertionDedup (s1.map Prod.fst ++ s2.map Prod.fst)).countP
        (fun c => decide ((objLookup s1 c).getD 0 < (objLookup s2 c).getD 0)))
    (hn1 : c1.name ≠ c2.name) (hn2 : c1.name ≠ "tie") (hn3 : c2.name ≠ "tie") :
    ∃ comp, compareCities (c1 :: c2 :: rest) = some comp
      ∧ comp.winner = (if w2 < w1 then c1.name else if w1 < w2 then c2.name else "tie")
      ∧ (comp.winner = c1.name ↔ w1 + w2 < 2 * w1)
      ∧ (comp.winner = "tie" ↔ w1 = w2) := by
  simp only [compareCities, h1, h2]
  refine ⟨_, rfl, ?_⟩
  rw [foldl_compareStep_wins1, foldl_compareStep_wins2]
  simp only [Nat.zero_add]
  rw [← hw1, ← hw2]
  refine ⟨rfl, ?_, ?_⟩
  · by_cases ha : w2 < w1
    · rw [if_pos ha]
      exact iff_of_true rfl (by omega)
    · by_cases hb : w1 < w2
      · rw [if_neg ha, if_pos hb]
        exact iff_of_false (fun h => hn1 h.symm) (by omega)
      · rw [if_neg ha, if_neg hb]
        exact iff_of_false (fun h => hn2 h.symm) (by omega)
  · by_cases ha : w2 < w1
    · rw [if_pos ha]
      exact iff_of_false hn2 (by omega)
    · by_cases hb : w1 < w2
      · rw [if_neg ha, if_pos hb]
        exact iff_of_false hn3 (by omega)
      · rw [if_neg ha, if_neg hb]
        exact iff_of_true rfl (by omega)

/-- C9 witness: the end-to-end scenario of the spec — Austin housing 7 and cost
6 against Denver housing 5 and cost 8 is a 1-1 split, so the winner is a tie. -/
theorem compareCities_winner_tally_witness :
    ∃ comp, compareCities [cityAus, cityDen] = some comp ∧ comp.winner = "tie" := by
  obtain ⟨comp, hc, hw, _, _⟩ := compareCities_winner_tally cityAus cityDen []
    [("housing", 7), ("costOfLiving", 6)] [("housing", 5), ("costOfLiving", 8)] 1 1
    rfl rfl
    (by simp [insertionDedup, objLookup, List.countP_cons, List.countP_nil,
          decide_eq_true_eq]
        norm_num)
    (by simp [insertionDedup, objLookup, List.countP_cons, List.countP_nil,
          decide_eq_true_eq]
        norm_num)
    (by decide) (by decide) (by decide)
  exact ⟨comp, hc, by rw [hw]; decide⟩

/-- C10: when the parsed request names no city but the result map carries city
info or neighborhood data, merge fabricates a single record processed under the
hard-coded fallback name New York. -/
theorem merge_fallback_new_york (parsedIntent : ParsedIntent) (apiResults : APIResults)
    (h : parsedIntent.locations.cities.getD [] = [])
    (h2 : apiResults.cityInfo.isSome = true ∨ apiResults.neighborhoods.isSome = true) :
    (merge parsedIntent apiResults).cities = [processCityData "New York" apiResults]
    ∧ (processCityData "New York" apiResults).name = "New York" := by
  refine ⟨?_, rfl⟩
  unfold merge
  rw [h]
  rcases h2 with h2 | h2 <;> simp [h2]

/-- C10 witness: a request with no cities and a present (error-shaped) cityInfo
result produces exactly the fabricated New York record. -/
theorem merge_fallback_new_york_witness :
    (merge piNY rNY).cities = [processCityData "New York" rNY]
    ∧ (processCityData "New York" rNY).name = "New York" :=
  merge_fallback_new_york piNY rNY rfl (Or.inl rfl)

end CityRelocation
